import Mathlib

/-!
Verification of the data-ui dynamic relation engine (src/src/main.rs,
src/src/error.rs) against its natural-language specification.

The Rust handlers are embedded shallowly: each handler becomes a pure Lean
function over an explicit database interface, SQL statement rendering becomes
String concatenation mirroring the format! calls, and fallible steps return
Except values.  The escaping routines live in the external postgres-protocol
crate (only imported by this repository), so they are modelled from the
specification; everything else is translated from the source.
-/

namespace DataUI

/-! ## Identifier / literal escaping -/

/-- The single-quote character, written by code point to keep source plain. -/
def squote : Char := Char.ofNat 39

/-- Doubling of a quote character inside a string body: every occurrence of
the quote character q is emitted twice, all other characters pass through. -/
def dupChar (q : Char) : List Char → List Char
  | [] => []
  | c :: cs => if c = q then q :: q :: dupChar q cs else c :: dupChar q cs

/-- Modelled from the spec: the escape-identifier operation of the Escaper
(the source imports postgres-protocol escape-identifier, an external crate,
so the body is not in this repository).  Per section 4.1 the output always
wraps the input in double quotes and doubles embedded quote characters. -/
def escape_identifier (s : String) : String :=
  ⟨'"' :: (dupChar '"' s.data ++ ['"'])⟩

/-- Modelled from the spec: the escape-literal operation of the Escaper
(external postgres-protocol crate).  Per section 4.1 the output always wraps
the input in single quotes and doubles embedded quote characters. -/
def escape_literal (s : String) : String :=
  ⟨squote :: (dupChar squote s.data ++ [squote])⟩

/-- SQL lexer for one quoted token, after the opening quote has been read:
consumes characters until the closing quote, treating a doubled quote
character as one quoted character, and succeeds only when the token ends
exactly at the end of the input, i.e. when the whole input is one token and
nothing follows it.  Returns the name or value the token denotes. -/
def parseQuotedBody (q : Char) : List Char → Option (List Char)
  | [] => none
  | c :: rest =>
    if c = q then
      match rest with
      | [] => some []
      | c2 :: rest2 =>
        if c2 = q then (parseQuotedBody q rest2).map (fun tl => q :: tl)
        else none
    else (parseQuotedBody q rest).map (fun tl => c :: tl)

/-- SQL lexer for one whole quoted token: the input must begin with the quote
character and consist of exactly one quoted token. -/
def parseQuotedToken (q : Char) (cs : List Char) : Option (List Char) :=
  match cs with
  | c :: rest => if c = q then parseQuotedBody q rest else none
  | [] => none

/-! ## JSON values (the serde-json value type, as far as the handlers use it) -/

/-- JSON values as handled by the object reader.  Mirrors the serde-json
value type; numbers are modelled as integers, which covers every use the
claims make of them. -/
inductive JValue where
  | null : JValue
  | bool : Bool → JValue
  | num : Int → JValue
  | str : String → JValue
  | arr : List JValue → JValue
  | obj : List (String × JValue) → JValue

/-- JSON string-body escaping used by serialization: quote and backslash are
escaped; other characters pass through (control-character escapes are not
exercised by any claim). -/
def escapeJsonChar (c : Char) : List Char :=
  if c = '"' then ['\\', '"']
  else if c = '\\' then ['\\', '\\']
  else [c]

/-- Rendering of a JSON string literal. -/
def renderJsonString (s : String) : String :=
  ⟨'"' :: (s.data.foldr (fun c acc => escapeJsonChar c ++ acc) ['"'])⟩

mutual

/-- Modelled serde-json to-string: compact serialization of a JSON value,
as used by the object reader to double-encode json/jsonb columns. -/
def JValue.render : JValue → String
  | .null => "null"
  | .bool true => "true"
  | .bool false => "false"
  | .num n => toString n
  | .str s => renderJsonString s
  | .arr xs => "[" ++ String.intercalate "," (JValue.renderList xs) ++ "]"
  | .obj fs => "\x7b" ++ String.intercalate "," (JValue.renderFields fs) ++ "\x7d"

/-- Serialization of the elements of a JSON array. -/
def JValue.renderList : List JValue → List String
  | [] => []
  | x :: xs => JValue.render x :: JValue.renderList xs

/-- Serialization of the fields of a JSON object. -/
def JValue.renderFields : List (String × JValue) → List String
  | [] => []
  | (k, v) :: kvs => (renderJsonString k ++ ":" ++ JValue.render v) :: JValue.renderFields kvs

end

/-! ## Error type and response mapping (src/src/error.rs) -/

/-- The error enum of src/src/error.rs.  The first three variants wrap
library errors (pool, database driver, serde-json); the payloads do not
influence any control flow in the handlers, so they are omitted. -/
inductive Error where
  | Bb8Postgres : Error
  | Postgres : Error
  | Json : Error
  | NoPrimaryKey : Error
deriving DecidableEq

/-- Display of an Error, from the thiserror attributes: NoPrimaryKey has the
fixed message; the transparent variants display the wrapped library error,
modelled here by fixed placeholder text (their text is only logged, never
sent to the client). -/
def Error.display : Error → String
  | .Bb8Postgres => "connection pool error"
  | .Postgres => "database error"
  | .Json => "serialization error"
  | .NoPrimaryKey => "no primary key found for table"

/-- Translation of src/src/error.rs into-response: NoPrimaryKey becomes a
400 Bad Request carrying its own message, every other variant becomes a
500 Internal Server Error with the fixed body. -/
def Error.into_response (e : Error) : Nat × String :=
  match e with
  | .NoPrimaryKey => (400, e.display)
  | _ => (500, "Unexpected error")

/-! ## Database interface -/

/-- A SQL statement together with its bound parameters, as passed to
conn.query / conn.query-opt. -/
structure Stmt where
  sql : String
  params : List String
deriving DecidableEq

/-- The database connection as the handlers see it: each kind of query the
handlers issue is answered by the corresponding field, given the rendered
SQL text (and bound parameters where the source binds any).  An error value
stands for a tokio-postgres error, including row-decoding failures. -/
structure Db where
  /-- Rows of the information-schema columns query: (column-name, data-type). -/
  runColumns : String → Except Unit (List (String × String))
  /-- Rows of the row-to-json data query, one optional JSON value per row. -/
  runData : String → Except Unit (List (Option JValue))
  /-- Rows of the COUNT(*) query. -/
  runCount : String → Except Unit (List Int)
  /-- Rows of the primary-key catalog query (attname per matching column),
  given the SQL text and the bound parameters. -/
  runPk : String → List String → Except Unit (List String)
  /-- Execution of a mutating statement. -/
  exec : Stmt → Except Unit Unit

/-- Modelled from the documented contract of tokio-postgres query-opt:
zero rows give none, one row gives it, and more than one row is an error. -/
def query_opt {α : Type} (rows : List α) : Except Unit (Option α) :=
  match rows with
  | [] => .ok none
  | [r] => .ok (some r)
  | _ => .error ()

/-- The primary-key catalog query text shared verbatim by the objects,
update-object and delete-object handlers. -/
def PK_QUERY : String :=
  "SELECT pg_attribute.attname\n                 FROM pg_index, pg_class, pg_attribute, pg_namespace\n                 WHERE indrelid = pg_class.oid AND nspname = \x27public\x27 AND pg_class.relnamespace = pg_namespace.oid AND\n                   pg_attribute.attrelid = pg_class.oid AND pg_attribute.attnum = any(pg_index.indkey) AND indisprimary AND\n                   relName = $1"

/-! ## Directory manager (create-directory handler) -/

/-- A column definition of a create-directory request (main.rs
CreateDirectoryProperty). -/
structure CreateDirectoryProperty where
  name : String
  ty : String
  default : Option String
  constraint : Option String

/-- A create-directory request (main.rs CreateDirectoryRequest). -/
structure CreateDirectoryRequest where
  directory : String
  properties : List CreateDirectoryProperty

/-- The constraint allow-list of main.rs. -/
def VALID_CONSTRAINTS : List String := ["PRIMARY KEY", "NOT NULL", "UNIQUE"]

/-- Rendering of one column definition inside create-directory (main.rs,
the closure mapped over req.properties): escaped name, escaped type,
optional DEFAULT with escaped literal, and the constraint token appended
only when it is on the allow-list. -/
def renderProperty (p : CreateDirectoryProperty) : String :=
  let prop := escape_identifier p.name ++ " " ++ escape_identifier p.ty
  let prop :=
    match p.default with
    | some d => prop ++ " DEFAULT " ++ escape_literal d
    | none => prop
  match p.constraint with
  | some c => if VALID_CONSTRAINTS.contains c then prop ++ " " ++ c else prop
  | none => prop

/-- The CREATE TABLE statement rendered by create-directory. -/
def create_directory_query (req : CreateDirectoryRequest) : String :=
  "CREATE TABLE " ++ escape_identifier req.directory ++ " (" ++
    String.intercalate ", " (req.properties.map renderProperty) ++ ")"

/-! ## Object reader (objects handler) -/

/-- Query-string parameters of the objects handler. -/
structure ObjectsRequest where
  directory : String
  cursor : Option Int

/-- Response body of the objects handler. -/
structure ObjectsResponse where
  objects : List (Option JValue)
  property_names : List String
  primary_key : Option String
  count : Int

/-- The information-schema columns query rendered by the objects handler:
it filters on table-name only, through an escaped literal. -/
def objects_columns_sql (directory : String) : String :=
  "SELECT column_name, data_type FROM information_schema.columns where table_name = " ++
    escape_literal directory

/-- The table-listing query issued by the directories handler (a fixed
string in main.rs, restricted to the public schema). -/
def DIRECTORIES_QUERY : String :=
  "SELECT TABLE_NAME FROM INFORMATION_SCHEMA.TABLES WHERE TABLE_SCHEMA = \x27public\x27"

/-- The paged data query rendered by the objects handler. -/
def objects_data_sql (directory : String) (offset : Int) : String :=
  "SELECT row_to_json(" ++ escape_identifier directory ++ ".*) FROM " ++
    escape_identifier directory ++ " LIMIT 10 OFFSET " ++ toString offset

/-- The exact row-count query rendered by the objects handler. -/
def objects_count_sql (directory : String) : String :=
  "SELECT COUNT(*) FROM " ++ escape_identifier directory

/-- Per-key normalization inside the objects handler row loop: when the
first catalog column of that name has type json or jsonb, the value is
replaced by its string serialization; otherwise it is kept. -/
def normalizeValue (properties : List (String × String)) (property : String)
    (value : JValue) : JValue :=
  match properties.find? (fun nt => nt.1 == property) with
  | some (_, ty) =>
    if ty == "json" || ty == "jsonb" then .str (JValue.render value) else value
  | none => value

/-- Per-row normalization of the objects handler: absent rows and rows that
are not JSON objects pass through; in an object row every field value is
normalized against the catalog column types. -/
def normalizeRow (properties : List (String × String)) (json : Option JValue) :
    Option JValue :=
  match json with
  | none => none
  | some j =>
    some (match j with
      | .obj fields =>
        .obj (fields.map (fun kv => (kv.1, normalizeValue properties kv.1 kv.2)))
      | other => other)

/-- The objects handler (main.rs objects): columns query, paged data query,
per-row json/jsonb double-encoding, COUNT(*) query read through query-opt
with default 0, then the primary-key query read through query-opt.  Every
driver failure propagates through the question-mark operator as a Postgres
error. -/
def objects (db : Db) (req : ObjectsRequest) : Except Error ObjectsResponse :=
  match db.runColumns (objects_columns_sql req.directory) with
  | .error _ => .error .Postgres
  | .ok properties =>
    match db.runData (objects_data_sql req.directory (req.cursor.getD 0)) with
    | .error _ => .error .Postgres
    | .ok rows =>
      let property_names := properties.map Prod.fst
      let objs := rows.map (normalizeRow properties)
      match db.runCount (objects_count_sql req.directory) with
      | .error _ => .error .Postgres
      | .ok countRows =>
        match query_opt countRows with
        | .error _ => .error .Postgres
        | .ok countRow =>
          let count := countRow.getD 0
          match db.runPk PK_QUERY [req.directory] with
          | .error _ => .error .Postgres
          | .ok pkRows =>
            match query_opt pkRows with
            | .error _ => .error .Postgres
            | .ok pkRow =>
              .ok { objects := objs, property_names := property_names,
                    primary_key := pkRow, count := count }

/-! ## Object writer (update-object and delete-object handlers) -/

/-- Body of an update-object request (main.rs UpdateObjectRequest); the
properties hash map is embedded as an association list in its iteration
order.  The delete-object handler also deserializes this type. -/
structure UpdateObjectRequest where
  id : String
  directory : String
  properties : List (String × String)

/-- The request type declared for delete-object (main.rs
DeleteObjectRequest); the handler itself extracts UpdateObjectRequest
instead, so this type is declared but unused by the routes. -/
structure DeleteObjectRequest where
  id : String
  directory : String

/-- The UPDATE statement rendered by update-object: note that both the
column name and the value of every SET pair go through escape-literal. -/
def update_sql (directory : String) (primary_key : String)
    (properties : List (String × String)) : String :=
  "UPDATE " ++ escape_identifier directory ++ " SET " ++
    String.intercalate ", "
      (properties.map (fun kv => escape_literal kv.1 ++ " = " ++ escape_literal kv.2)) ++
    " WHERE " ++ escape_identifier primary_key ++ " = $1"

/-- The DELETE statement rendered by delete-object. -/
def delete_sql (directory : String) (primary_key : String) : String :=
  "DELETE FROM " ++ escape_identifier directory ++ " WHERE " ++
    escape_identifier primary_key ++ " = $1"

/-- The update-object handler (main.rs update_object), returning the list
of statements it issued together with its result: primary-key lookup via
query-opt, NoPrimaryKey when it yields no row, then the UPDATE with only
the id bound as a parameter. -/
def update_object (db : Db) (req : UpdateObjectRequest) :
    List Stmt × Except Error Unit :=
  let pkStmt : Stmt := ⟨PK_QUERY, [req.directory]⟩
  match db.runPk PK_QUERY [req.directory] with
  | .error _ => ([pkStmt], .error .Postgres)
  | .ok rows =>
    match query_opt rows with
    | .error _ => ([pkStmt], .error .Postgres)
    | .ok none => ([pkStmt], .error .NoPrimaryKey)
    | .ok (some primary_key) =>
      let stmt : Stmt := ⟨update_sql req.directory primary_key req.properties, [req.id]⟩
      match db.exec stmt with
      | .error _ => ([pkStmt, stmt], .error .Postgres)
      | .ok _ => ([pkStmt, stmt], .ok ())

/-- The delete-object handler (main.rs delete_object): same primary-key
resolution and NoPrimaryKey behavior as update-object, then the DELETE with
only the id bound as a parameter.  The properties field of the request is
never consulted. -/
def delete_object (db : Db) (req : UpdateObjectRequest) :
    List Stmt × Except Error Unit :=
  let pkStmt : Stmt := ⟨PK_QUERY, [req.directory]⟩
  match db.runPk PK_QUERY [req.directory] with
  | .error _ => ([pkStmt], .error .Postgres)
  | .ok rows =>
    match query_opt rows with
    | .error _ => ([pkStmt], .error .Postgres)
    | .ok none => ([pkStmt], .error .NoPrimaryKey)
    | .ok (some primary_key) =>
      let stmt : Stmt := ⟨delete_sql req.directory primary_key, [req.id]⟩
      match db.exec stmt with
      | .error _ => ([pkStmt, stmt], .error .Postgres)
      | .ok _ => ([pkStmt, stmt], .ok ())

/-! ## Catalog semantics

The three catalog queries the handlers issue are fixed SQL texts (up to the
escaped directory name); their WHERE clauses are transcribed here as filters
over an abstract catalog so that the schema-scoping claims can be stated. -/

/-- A row of information-schema columns, with the attributes the queries
touch. -/
structure CatColumn where
  table_schema : String
  table_name : String
  column_name : String
  data_type : String

/-- A row of information-schema tables. -/
structure CatTable where
  table_schema : String
  table_name : String

/-- A primary-key column entry of the pg-catalog join (namespace name,
relation name, attribute name). -/
structure PkEntry where
  nspname : String
  relname : String
  attname : String

/-- An abstract database catalog. -/
structure Catalog where
  columns : List CatColumn
  tables : List CatTable
  pkcols : List PkEntry

/-- Transcription of the WHERE clause of the objects columns query: it
compares table-name only — no schema condition appears in the query text. -/
def columnsResult (cat : Catalog) (dir : String) : List (String × String) :=
  (cat.columns.filter (fun c => c.table_name == dir)).map
    (fun c => (c.column_name, c.data_type))

/-- Transcription of the WHERE clause of the directories query: tables of
the public schema only. -/
def directoriesResult (cat : Catalog) : List String :=
  (cat.tables.filter (fun t => t.table_schema == "public")).map
    (fun t => t.table_name)

/-- Transcription of the WHERE clause of the primary-key query: entries of
the public namespace whose relation name equals the bound directory name. -/
def pkResult (cat : Catalog) (dir : String) : List String :=
  (cat.pkcols.filter (fun p => p.nspname == "public" && p.relname == dir)).map
    (fun p => p.attname)

/-! ## Table semantics for pagination -/

/-- Modelled from the spec: the rows the paged data query returns against a
table whose row-to-json values are t, for the LIMIT 10 OFFSET n clause the
handler renders (offsets issued by the scenario are nonnegative). -/
def pageRows (t : List (Option JValue)) (offset : Nat) : List (Option JValue) :=
  (t.drop offset).take 10

/-- A database holding one table with the given catalog columns, rows and
primary-key column list; the data query is answered with the page at the
given offset, the one the rendered query requests, and COUNT(*) with the
exact number of rows. -/
def tableDb (props : List (String × String)) (t : List (Option JValue))
    (pks : List String) (offset : Nat) : Db where
  runColumns := fun _ => .ok props
  runData := fun _ => .ok (pageRows t offset)
  runCount := fun _ => .ok [Int.ofNat t.length]
  runPk := fun _ _ => .ok pks
  exec := fun _ => .ok ()

/-! ## Concrete database instances used by witnesses and counterexamples -/

/-- A database whose primary-key query finds the single column id and whose
statements all succeed. -/
def okDb : Db where
  runColumns := fun _ => .ok [("id", "integer")]
  runData := fun _ => .ok []
  runCount := fun _ => .ok [0]
  runPk := fun _ _ => .ok ["id"]
  exec := fun _ => .ok ()

/-- A database whose primary-key query yields no row. -/
def noPkDb : Db where
  runColumns := fun _ => .ok [("id", "integer")]
  runData := fun _ => .ok []
  runCount := fun _ => .ok [0]
  runPk := fun _ _ => .ok []
  exec := fun _ => .ok ()

/-- A database whose primary-key query yields two rows, as it does for a
table with a compound primary key. -/
def twoPkDb : Db where
  runColumns := fun _ => .ok [("id", "integer")]
  runData := fun _ => .ok []
  runCount := fun _ => .ok [0]
  runPk := fun _ _ => .ok ["a", "b"]
  exec := fun _ => .ok ()

/-- A catalog holding a table named t that lives outside the public schema. -/
def crossCat : Catalog where
  columns := [⟨"other", "t", "secret", "text"⟩]
  tables := [⟨"other", "t"⟩]
  pkcols := [⟨"other", "t", "sid"⟩]

end DataUI

/-! ## Helper lemmas -/

theorem string_append_assoc (a b c : String) : a ++ b ++ c = a ++ (b ++ c) := by
  apply String.ext
  simp [String.data_append, List.append_assoc]

theorem string_append_empty (a : String) : a ++ "" = a := by
  apply String.ext
  rw [String.data_append]
  show a.data ++ [] = a.data
  simp

theorem parseQuotedBody_dupChar (q : Char) (cs : List Char) :
    DataUI.parseQuotedBody q (DataUI.dupChar q cs ++ [q]) = some cs := by
  induction cs with
  | nil => simp [DataUI.dupChar, DataUI.parseQuotedBody]
  | cons c cs ih =>
    by_cases h : c = q
    · subst h
      simp [DataUI.dupChar, DataUI.parseQuotedBody, ih]
    · rw [DataUI.dupChar, if_neg h, List.cons_append, DataUI.parseQuotedBody.eq_def]
      simp [h, ih]

/-- C1: for every input string, the escaper's identifier output and literal
output are each exactly one quoted token of the SQL lexer — the token
extends to the end of the output, so no character combination in the input
terminates the quoting early or leaves trailing characters that could form
additional SQL tokens — and reading the token back recovers exactly the
original string. -/
theorem c1_escaper_roundtrip (s : String) :
    DataUI.parseQuotedToken '"' (DataUI.escape_identifier s).data = some s.data ∧
    DataUI.parseQuotedToken DataUI.squote (DataUI.escape_literal s).data = some s.data := by
  constructor
  · show DataUI.parseQuotedToken '"'
      ('"' :: (DataUI.dupChar '"' s.data ++ ['"'])) = some s.data
    rw [DataUI.parseQuotedToken]
    simp [parseQuotedBody_dupChar]
  · show DataUI.parseQuotedToken DataUI.squote
      (DataUI.squote :: (DataUI.dupChar DataUI.squote s.data ++ [DataUI.squote])) = some s.data
    rw [DataUI.parseQuotedToken]
    simp [parseQuotedBody_dupChar]

theorem update_object_nopk (db : DataUI.Db) (req : DataUI.UpdateObjectRequest) :
    ((DataUI.update_object db req).2 = .error .NoPrimaryKey ↔
      db.runPk DataUI.PK_QUERY [req.directory] = .ok []) ∧
    (db.runPk DataUI.PK_QUERY [req.directory] = .ok [] →
      (DataUI.update_object db req).1 = [⟨DataUI.PK_QUERY, [req.directory]⟩]) := by
  unfold DataUI.update_object
  cases hpk : db.runPk DataUI.PK_QUERY [req.directory] with
  | error e => simp [hpk]
  | ok rows =>
    rcases rows with _ | ⟨r, _ | ⟨r2, rs⟩⟩
    · simp [hpk, DataUI.query_opt]
    · simp only [hpk, DataUI.query_opt]
      constructor
      · constructor
        · split <;> simp
        · simp
      · simp
    · simp [hpk, DataUI.query_opt]

theorem delete_object_nopk (db : DataUI.Db) (req : DataUI.UpdateObjectRequest) :
    ((DataUI.delete_object db req).2 = .error .NoPrimaryKey ↔
      db.runPk DataUI.PK_QUERY [req.directory] = .ok []) ∧
    (db.runPk DataUI.PK_QUERY [req.directory] = .ok [] →
      (DataUI.delete_object db req).1 = [⟨DataUI.PK_QUERY, [req.directory]⟩]) := by
  unfold DataUI.delete_object
  cases hpk : db.runPk DataUI.PK_QUERY [req.directory] with
  | error e => simp [hpk]
  | ok rows =>
    rcases rows with _ | ⟨r, _ | ⟨r2, rs⟩⟩
    · simp [hpk, DataUI.query_opt]
    · simp only [hpk, DataUI.query_opt]
      constructor
      · constructor
        · split <;> simp
        · simp
      · simp
    · simp [hpk, DataUI.query_opt]

/-- C3: update-object and delete-object return NoPrimaryKey exactly when the
primary-key lookup for the named directory succeeds with zero rows, and in
that case the lookup is the only statement issued — no UPDATE or DELETE is
rendered; the response mapping reports NoPrimaryKey as a distinct 400
client-fault body while every other error variant (database, pool,
serialization) collapses to the one generic 500 body. -/
theorem c3_no_primary_key_behavior (db : DataUI.Db)
    (requ reqd : DataUI.UpdateObjectRequest) :
    ((DataUI.update_object db requ).2 = .error .NoPrimaryKey ↔
        db.runPk DataUI.PK_QUERY [requ.directory] = .ok []) ∧
    ((DataUI.delete_object db reqd).2 = .error .NoPrimaryKey ↔
        db.runPk DataUI.PK_QUERY [reqd.directory] = .ok []) ∧
    (db.runPk DataUI.PK_QUERY [requ.directory] = .ok [] →
        (DataUI.update_object db requ).1 = [⟨DataUI.PK_QUERY, [requ.directory]⟩]) ∧
    (db.runPk DataUI.PK_QUERY [reqd.directory] = .ok [] →
        (DataUI.delete_object db reqd).1 = [⟨DataUI.PK_QUERY, [reqd.directory]⟩]) ∧
    DataUI.Error.into_response .NoPrimaryKey = (400, "no primary key found for table") ∧
    (∀ e : DataUI.Error, e ≠ .NoPrimaryKey →
        DataUI.Error.into_response e = (500, "Unexpected error")) := by
  refine ⟨(update_object_nopk db requ).1, (delete_object_nopk db reqd).1,
          (update_object_nopk db requ).2, (delete_object_nopk db reqd).2, rfl, ?_⟩
  intro e he
  cases e <;> first | rfl | exact absurd rfl he

/-- Witness for C3 at a concrete database whose primary-key query returns
zero rows. -/
theorem c3_witness :
    (DataUI.update_object DataUI.noPkDb ⟨"1", "t", []⟩).2 = .error .NoPrimaryKey ∧
    (DataUI.update_object DataUI.noPkDb ⟨"1", "t", []⟩).1 =
      [⟨DataUI.PK_QUERY, ["t"]⟩] ∧
    (DataUI.delete_object DataUI.noPkDb ⟨"1", "t", []⟩).2 = .error .NoPrimaryKey :=
  ⟨(c3_no_primary_key_behavior DataUI.noPkDb ⟨"1", "t", []⟩ ⟨"1", "t", []⟩).1.mpr rfl,
   (c3_no_primary_key_behavior DataUI.noPkDb ⟨"1", "t", []⟩ ⟨"1", "t", []⟩).2.2.1 rfl,
   (c3_no_primary_key_behavior DataUI.noPkDb ⟨"1", "t", []⟩ ⟨"1", "t", []⟩).2.1.mpr rfl⟩

/-- C2: evaluation of the update-object rendering at a failing input
(directory t, id 1, one property a = b, primary key id).  The source passes
the SET column name through escape-literal, so the rendered statement
assigns to the string literal token for a, not to the quoted identifier the
claim requires; only the id is bound as a real parameter.  The second
conjunct records that the rendered statement differs from the one the claim
describes. -/
theorem c2_set_column_escaped_as_literal :
    DataUI.update_object DataUI.okDb ⟨"1", "t", [("a", "b")]⟩ =
      ([⟨DataUI.PK_QUERY, ["t"]⟩,
        ⟨"UPDATE \"t\" SET \x27a\x27 = \x27b\x27 WHERE \"id\" = $1", ["1"]⟩],
       .ok ()) ∧
    "UPDATE \"t\" SET \x27a\x27 = \x27b\x27 WHERE \"id\" = $1" ≠
      "UPDATE \"t\" SET \"a\" = \x27b\x27 WHERE \"id\" = $1" := by
  constructor
  · rfl
  · decide

/-- C4: the rendered column definition carries the constraint token as its
suffix exactly when the token is on the allow-list; any other token leaves
the rendering identical to the constraint-free rendering — the token never
reaches the statement, and the rendering is total, so the request is never
rejected for it. -/
theorem c4_constraint_allowlist (p : DataUI.CreateDirectoryProperty) (c : String)
    (h : p.constraint = some c) :
    DataUI.renderProperty p =
      (if DataUI.VALID_CONSTRAINTS.contains c
       then DataUI.renderProperty { p with constraint := none } ++ " " ++ c
       else DataUI.renderProperty { p with constraint := none }) := by
  obtain ⟨n, t, d, k⟩ := p
  cases h
  rfl

/-- Witness for C4: a disallowed token FOO is dropped, an allow-listed
token is appended. -/
theorem c4_witness :
    DataUI.renderProperty ⟨"id", "serial", none, some "FOO"⟩ =
      (if DataUI.VALID_CONSTRAINTS.contains "FOO"
       then DataUI.renderProperty ⟨"id", "serial", none, none⟩ ++ " " ++ "FOO"
       else DataUI.renderProperty ⟨"id", "serial", none, none⟩) ∧
    DataUI.renderProperty ⟨"id", "serial", none, some "FOO"⟩ = "\"id\" \"serial\"" ∧
    DataUI.renderProperty ⟨"id", "serial", none, some "PRIMARY KEY"⟩ =
      "\"id\" \"serial\" PRIMARY KEY" :=
  ⟨c4_constraint_allowlist ⟨"id", "serial", none, some "FOO"⟩ "FOO" rfl,
   by rw [c4_constraint_allowlist ⟨"id", "serial", none, some "FOO"⟩ "FOO" rfl]; rfl,
   by rw [c4_constraint_allowlist ⟨"id", "serial", none, some "PRIMARY KEY"⟩
        "PRIMARY KEY" rfl]; rfl⟩

/-- C5: per returned row, absent rows and rows that are not JSON objects
pass through unchanged; in an object row every key is rewritten through the
per-key normalization, which replaces the value by the string serialization
of that value exactly when the catalog column found for the key has type
json or jsonb, and keeps the value unchanged for every other type and for
keys without a catalog column. -/
theorem c5_json_normalization (properties : List (String × String))
    (fs : List (String × DataUI.JValue)) (k : String) (v : DataUI.JValue) :
    DataUI.normalizeRow properties none = none ∧
    (∀ j : DataUI.JValue, (∀ gs, j ≠ DataUI.JValue.obj gs) →
        DataUI.normalizeRow properties (some j) = some j) ∧
    DataUI.normalizeRow properties (some (DataUI.JValue.obj fs)) =
      some (DataUI.JValue.obj (fs.map (fun kv =>
        (kv.1, DataUI.normalizeValue properties kv.1 kv.2)))) ∧
    (∀ n ty, properties.find? (fun nt => nt.1 == k) = some (n, ty) →
        (ty = "json" ∨ ty = "jsonb") →
        DataUI.normalizeValue properties k v = .str (DataUI.JValue.render v)) ∧
    (∀ n ty, properties.find? (fun nt => nt.1 == k) = some (n, ty) →
        ty ≠ "json" → ty ≠ "jsonb" →
        DataUI.normalizeValue properties k v = v) ∧
    (properties.find? (fun nt => nt.1 == k) = none →
        DataUI.normalizeValue properties k v = v) := by
  refine ⟨rfl, ?_, rfl, ?_, ?_, ?_⟩
  · intro j hj
    cases j <;> first | rfl | exact absurd rfl (hj _)
  · intro n ty hf hty
    unfold DataUI.normalizeValue
    rw [hf]
    rcases hty with h | h <;> subst h <;> simp
  · intro n ty hf h1 h2
    unfold DataUI.normalizeValue
    rw [hf]
    simp [h1, h2]
  · intro hf
    unfold DataUI.normalizeValue
    rw [hf]

/-- Witness for C5 at the spec scenario: a jsonb column storing the object
with field a mapped to 1 comes back as the double-encoded string, while a
sibling text column passes through unchanged. -/
theorem c5_witness :
    DataUI.normalizeValue [("data", "jsonb"), ("label", "text")] "data"
        (DataUI.JValue.obj [("a", DataUI.JValue.num 1)]) =
      DataUI.JValue.str "\x7b\"a\":1\x7d" ∧
    DataUI.normalizeValue [("data", "jsonb"), ("label", "text")] "label"
        (DataUI.JValue.str "x") =
      DataUI.JValue.str "x" := by
  constructor
  · rw [(c5_json_normalization [("data", "jsonb"), ("label", "text")] [] "data"
        (DataUI.JValue.obj [("a", DataUI.JValue.num 1)])).2.2.2.1 "data" "jsonb"
        rfl (Or.inr rfl)]
    rfl
  · exact (c5_json_normalization [("data", "jsonb"), ("label", "text")] [] "label"
      (DataUI.JValue.str "x")).2.2.2.2.1 "label" "text" rfl (by decide) (by decide)

/-- C6: the data query the handler renders asks for LIMIT 10 at OFFSET equal
to the cursor (0 when absent, shown here at cursor 20 and at the default),
and against a table of 25 rows — the database answering the paged query with
the page it requests and COUNT(*) exactly — cursor 0 yields 10 rows and
count 25, cursor 20 yields 5 rows and count 25, cursor 25 yields 0 rows and
count 25. -/
theorem c6_pagination (props : List (String × String))
    (t : List (Option DataUI.JValue)) (pk d : String) (h25 : t.length = 25) :
    DataUI.objects_data_sql "t" 20 =
      "SELECT row_to_json(\"t\".*) FROM \"t\" LIMIT 10 OFFSET 20" ∧
    DataUI.objects_data_sql "t" 0 =
      "SELECT row_to_json(\"t\".*) FROM \"t\" LIMIT 10 OFFSET 0" ∧
    (∃ r, DataUI.objects (DataUI.tableDb props t [pk] 0) ⟨d, none⟩ = .ok r ∧
        r.objects.length = 10 ∧ r.count = 25) ∧
    (∃ r, DataUI.objects (DataUI.tableDb props t [pk] 20) ⟨d, some 20⟩ = .ok r ∧
        r.objects.length = 5 ∧ r.count = 25) ∧
    (∃ r, DataUI.objects (DataUI.tableDb props t [pk] 25) ⟨d, some 25⟩ = .ok r ∧
        r.objects.length = 0 ∧ r.count = 25) := by
  refine ⟨rfl, rfl, ?_, ?_, ?_⟩ <;>
    refine ⟨_, rfl, ?_, ?_⟩ <;>
    simp [DataUI.pageRows, h25]

/-- Witness for C6 at a concrete 25-row table, cursor 20. -/
theorem c6_witness :
    ∃ r, DataUI.objects
        (DataUI.tableDb [("id", "integer")]
          (List.replicate 25 (some DataUI.JValue.null)) ["id"] 20)
        ⟨"t", some 20⟩ = .ok r ∧
      r.objects.length = 5 ∧ r.count = 25 :=
  (c6_pagination [("id", "integer")] (List.replicate 25 (some DataUI.JValue.null))
    "id" "t" (by simp)).2.2.2.1

/-- Counterexample for C7: against a database whose primary-key catalog
query matches the two columns a and b (a compound-key table), the handlers
do not use the first column — the one-row read of the lookup fails, so
listObjects returns the generic database error rather than the response
with primary key a, and update-object stops after the lookup with the same
error instead of rendering a WHERE clause. -/
theorem c7_counterexample :
    DataUI.objects DataUI.twoPkDb ⟨"t", none⟩ = .error DataUI.Error.Postgres ∧
    DataUI.objects DataUI.twoPkDb ⟨"t", none⟩ ≠
      .ok ⟨[], ["id"], some "a", 0⟩ ∧
    DataUI.update_object DataUI.twoPkDb ⟨"1", "t", []⟩ =
      ([⟨DataUI.PK_QUERY, ["t"]⟩], .error DataUI.Error.Postgres) ∧
    DataUI.delete_object DataUI.twoPkDb ⟨"1", "t", []⟩ =
      ([⟨DataUI.PK_QUERY, ["t"]⟩], .error DataUI.Error.Postgres) := by
  refine ⟨rfl, ?_, rfl, rfl⟩
  intro hc
  rw [show DataUI.objects DataUI.twoPkDb ⟨"t", none⟩ = .error DataUI.Error.Postgres
      from rfl] at hc
  exact Except.noConfusion hc

/-- C7 as amended: whenever the primary-key catalog query matches more than
one column, the one-row read rejects the result, so listObjects fails with
the generic database error, and update-object and delete-object fail the
same way right after the lookup, issuing no UPDATE or DELETE. -/
theorem c7_amended_multi_column_pk_fails (db : DataUI.Db)
    (reqO : DataUI.ObjectsRequest) (reqU reqD : DataUI.UpdateObjectRequest)
    (rowsO rowsU rowsD : List String)
    (hO : db.runPk DataUI.PK_QUERY [reqO.directory] = .ok rowsO)
    (h2O : 2 ≤ rowsO.length)
    (hU : db.runPk DataUI.PK_QUERY [reqU.directory] = .ok rowsU)
    (h2U : 2 ≤ rowsU.length)
    (hD : db.runPk DataUI.PK_QUERY [reqD.directory] = .ok rowsD)
    (h2D : 2 ≤ rowsD.length) :
    DataUI.objects db reqO = .error DataUI.Error.Postgres ∧
    DataUI.update_object db reqU =
      ([⟨DataUI.PK_QUERY, [reqU.directory]⟩], .error DataUI.Error.Postgres) ∧
    DataUI.delete_object db reqD =
      ([⟨DataUI.PK_QUERY, [reqD.directory]⟩], .error DataUI.Error.Postgres) := by
  refine ⟨?_, ?_, ?_⟩
  · rcases rowsO with _ | ⟨a, _ | ⟨b, rest⟩⟩
    · simp at h2O
    · simp at h2O
    · unfold DataUI.objects
      rw [hO]
      cases db.runColumns (DataUI.objects_columns_sql reqO.directory) with
      | error e => rfl
      | ok cols =>
        cases db.runData
            (DataUI.objects_data_sql reqO.directory (reqO.cursor.getD 0)) with
        | error e => rfl
        | ok rows =>
          cases db.runCount (DataUI.objects_count_sql reqO.directory) with
          | error e => rfl
          | ok cnts => rcases cnts with _ | ⟨c1, _ | ⟨c2, crest⟩⟩ <;> rfl
  · rcases rowsU with _ | ⟨a, _ | ⟨b, rest⟩⟩
    · simp at h2U
    · simp at h2U
    · simp [DataUI.update_object, hU, DataUI.query_opt]
  · rcases rowsD with _ | ⟨a, _ | ⟨b, rest⟩⟩
    · simp at h2D
    · simp at h2D
    · simp [DataUI.delete_object, hD, DataUI.query_opt]

/-- Witness for C7 as amended, at the concrete two-column database. -/
theorem c7_witness :
    DataUI.objects DataUI.twoPkDb ⟨"u", none⟩ = .error DataUI.Error.Postgres ∧
    DataUI.update_object DataUI.twoPkDb ⟨"2", "u", []⟩ =
      ([⟨DataUI.PK_QUERY, ["u"]⟩], .error DataUI.Error.Postgres) :=
  ⟨(c7_amended_multi_column_pk_fails DataUI.twoPkDb ⟨"u", none⟩ ⟨"2", "u", []⟩
      ⟨"2", "u", []⟩ ["a", "b"] ["a", "b"] ["a", "b"] rfl (by decide) rfl
      (by decide) rfl (by decide)).1,
   (c7_amended_multi_column_pk_fails DataUI.twoPkDb ⟨"u", none⟩ ⟨"2", "u", []⟩
      ⟨"2", "u", []⟩ ["a", "b"] ["a", "b"] ["a", "b"] rfl (by decide) rfl
      (by decide) rfl (by decide)).2.1⟩

/-- Counterexample for C8: at the concrete request creating directory t with
one property id of type varchar(50), the rendered statement wraps the type
as a quoted identifier; it is not the statement the claim describes, in
which the type token appears as-is. -/
theorem c8_counterexample :
    DataUI.create_directory_query ⟨"t", [⟨"id", "varchar(50)", none, none⟩]⟩ =
      "CREATE TABLE \"t\" (\"id\" \"varchar(50)\")" ∧
    DataUI.create_directory_query ⟨"t", [⟨"id", "varchar(50)", none, none⟩]⟩ ≠
      "CREATE TABLE \"t\" (\"id\" varchar(50))" := by
  constructor
  · rfl
  · decide

theorem renderProperty_flat (p : DataUI.CreateDirectoryProperty) :
    DataUI.renderProperty p =
      DataUI.escape_identifier p.name ++ " " ++ DataUI.escape_identifier p.ty ++
        (match p.default with
         | some d => " DEFAULT " ++ DataUI.escape_literal d
         | none => "") ++
        (match p.constraint with
         | some c =>
           if DataUI.VALID_CONSTRAINTS.contains c then " " ++ c else ""
         | none => "") := by
  obtain ⟨n, t, d, k⟩ := p
  cases d <;> cases k <;> simp only [DataUI.renderProperty] <;>
    try split
  all_goals simp [string_append_assoc, string_append_empty]

/-- C8 as amended: the create-directory statement is CREATE TABLE with the
escaped directory name and, per property, the escaped property name
followed by the type-name rendered as an escaped (quoted) identifier — not
as a raw SQL type token — optionally suffixed by DEFAULT with the escaped
literal and by an allow-listed constraint keyword. -/
theorem c8_amended_type_is_escaped_identifier (req : DataUI.CreateDirectoryRequest) :
    DataUI.create_directory_query req =
      "CREATE TABLE " ++ DataUI.escape_identifier req.directory ++ " (" ++
        String.intercalate ", " (req.properties.map (fun p =>
          DataUI.escape_identifier p.name ++ " " ++ DataUI.escape_identifier p.ty ++
            (match p.default with
             | some d => " DEFAULT " ++ DataUI.escape_literal d
             | none => "") ++
            (match p.constraint with
             | some c =>
               if DataUI.VALID_CONSTRAINTS.contains c then " " ++ c else ""
             | none => ""))) ++ ")" := by
  unfold DataUI.create_directory_query
  rw [funext renderProperty_flat]

/-- C9: the whole observable behavior of delete-object — the statements it
issues, including the rendered DELETE and its single bound parameter, and
its result — depends only on the id and directory fields of the request;
the properties map that the handler's request type carries (the handler
deserializes UpdateObjectRequest although DeleteObjectRequest declares only
id and directory) never influences it. -/
theorem c9_delete_ignores_properties (db : DataUI.Db)
    (r1 r2 : DataUI.UpdateObjectRequest)
    (hid : r1.id = r2.id) (hdir : r1.directory = r2.directory) :
    DataUI.delete_object db r1 = DataUI.delete_object db r2 := by
  obtain ⟨i1, d1, p1⟩ := r1
  obtain ⟨i2, d2, p2⟩ := r2
  dsimp only at hid hdir
  subst hid
  subst hdir
  rfl

/-- Witness for C9: two concrete requests agreeing on id and directory but
differing in the properties map produce identical behavior. -/
theorem c9_witness :
    DataUI.delete_object DataUI.okDb ⟨"1", "t", [("a", "b")]⟩ =
      DataUI.delete_object DataUI.okDb ⟨"1", "t", []⟩ :=
  c9_delete_ignores_properties DataUI.okDb ⟨"1", "t", [("a", "b")]⟩ ⟨"1", "t", []⟩
    rfl rfl

/-- C10: the column-metadata query is rendered with a WHERE clause on
table-name only (the directory name as an escaped literal, no schema
condition), so every catalog column row whose table name matches the
directory contributes its (name, type) pair whatever its schema; by
contrast, every name the table-listing query returns comes from a table of
the public schema, and every column the primary-key query returns comes
from a public-namespace entry for the named relation. -/
theorem c10_columns_query_ignores_schema (cat : DataUI.Catalog) (dir : String) :
    DataUI.objects_columns_sql dir =
      "SELECT column_name, data_type FROM information_schema.columns where table_name = " ++
        DataUI.escape_literal dir ∧
    (∀ c : DataUI.CatColumn, c ∈ cat.columns → c.table_name = dir →
        (c.column_name, c.data_type) ∈ DataUI.columnsResult cat dir) ∧
    (∀ n, n ∈ DataUI.directoriesResult cat →
        ∃ t, t ∈ cat.tables ∧ t.table_schema = "public" ∧ t.table_name = n) ∧
    (∀ a, a ∈ DataUI.pkResult cat dir →
        ∃ p, p ∈ cat.pkcols ∧ p.nspname = "public" ∧ p.relname = dir ∧
          p.attname = a) := by
  refine ⟨rfl, ?_, ?_, ?_⟩
  · intro c hc hname
    simp only [DataUI.columnsResult, List.mem_map, List.mem_filter]
    exact ⟨c, ⟨hc, by simp [hname]⟩, rfl⟩
  · intro n hn
    simp only [DataUI.directoriesResult, List.mem_map, List.mem_filter] at hn
    obtain ⟨t, ⟨ht, hs⟩, hname⟩ := hn
    exact ⟨t, ht, by simpa using hs, hname⟩
  · intro a ha
    simp only [DataUI.pkResult, List.mem_map, List.mem_filter] at ha
    obtain ⟨p, ⟨hp, hcond⟩, hname⟩ := ha
    rw [Bool.and_eq_true] at hcond
    exact ⟨p, hp, by simpa using hcond.1, by simpa using hcond.2, hname⟩

/-- Witness for C10: a column of a table named t in a schema other than
public is still returned by the column-metadata query for directory t. -/
theorem c10_witness :
    ("secret", "text") ∈ DataUI.columnsResult DataUI.crossCat "t" :=
  (c10_columns_query_ignores_schema DataUI.crossCat "t").2.1
    ⟨"other", "t", "secret", "text"⟩ (by simp [DataUI.crossCat]) rfl
